import Mathlib

/-!
Verification of the topic-gating / conversation-session / protocol-response
subsystem of the health_agent repository (health_tips/views.py).

The Python source is shallowly embedded as executable Lean functions:
* `is_health_related` / `classifyWith` — the keyword classifier
  (`GeminiHealthChat.is_health_related`);
* `chatWith` / `chat` — the chat orchestrator (`GeminiHealthChat.chat`),
  parameterised by the outcome of the generative-model call (the body of the
  `try:` block at views.py:164-201 either produces an extracted reply text,
  modelled `Except.ok text`, or raises, modelled `Except.error ()`);
* `Store` operations — the in-memory `conversation_history` dict;
* `JValue` / `post` — the JSON-RPC dispatch of `A2AHealthView.post`,
  parameterised by the two method handlers (which catch their own
  exceptions in the source and therefore always return a response).

Python string primitives used by the source are embedded at the level of
character lists so that everything reduces in the kernel:
`lower()` as `pyLower`, `in` (substring) as `listSub`, `startswith` as
`listPre`, `strip()` as `pyStrip`, `split()` length as `countTokens`.
-/

/-- Speaker role of a conversation turn. -/
inductive Role
  | system
  | assistant
  | user
deriving DecidableEq

/-- One stored conversation turn: `{"role": ..., "content": ...}`. -/
structure Turn where
  role : Role
  content : String
deriving DecidableEq

/-- Three-way classification of a user message (spec §4.1). -/
inductive Classification
  | OnTopic
  | OffTopic
  | Ambiguous
deriving DecidableEq

/-- Python `list.startswith`-style prefix test on character lists. -/
def listPre : List Char → List Char → Bool
  | [], _ => true
  | _ :: _, [] => false
  | a :: as, b :: bs => a == b && listPre as bs

/-- Python `needle in hay` contiguous-substring test on character lists. -/
def listSub (needle : List Char) : List Char → Bool
  | [] => listPre needle []
  | b :: bs => listPre needle (b :: bs) || listSub needle bs

/-- Python `message.lower()` (ASCII case folding), as a character list. -/
def pyLower (s : String) : List Char := s.toList.map Char.toLower

/-- Python `not message or not message.strip()`: the string is empty or
whitespace-only. -/
def isBlank (s : String) : Bool := s.toList.all (fun c => c.isWhitespace)

/-- Python `s.strip()`: drop leading and trailing whitespace. -/
def pyStrip (s : String) : String :=
  String.mk ((((s.toList).dropWhile Char.isWhitespace).reverse.dropWhile
    Char.isWhitespace).reverse)

/-- `len(user_message.split())`: number of maximal non-whitespace runs.
The flag records whether the previous character was a separator. -/
def tokCountAux : Bool → List Char → Nat
  | _, [] => 0
  | prevWs, c :: r =>
    if c.isWhitespace then tokCountAux true r
    else (if prevWs then 1 else 0) + tokCountAux false r

/-- Number of whitespace-delimited tokens of a string, Python `len(s.split())`. -/
def countTokens (s : String) : Nat := tokCountAux true s.toList

/-- The membership test the source runs for one off-topic token
(views.py:98): `f" {token}" in (" " + m) or m.startswith(token + " ")
or m == token`, on the lowered message `m`. -/
def wsTokenHit (m tok : List Char) : Bool :=
  listSub (' ' :: tok) (' ' :: m) || listPre (tok ++ [' ']) m || m == tok

/-- `any` of `wsTokenHit` over a token set (the `for token in
off_topic_tokens` loop, views.py:97-100). -/
def blockHit (block : List String) (m : List Char) : Bool :=
  block.any (fun tok => wsTokenHit m tok.toList)

/-- The `off_topic_tokens` set of views.py:89-96. -/
def off_topic_tokens : List String :=
  ["dog", "dogs", "pet", "pets", "cat", "cats", "animal", "animals",
   "movie", "movies", "music", "sport", "sports", "game", "games",
   "stock", "crypto", "bitcoin", "politics", "weather", "recipe",
   "recipes", "car", "cars", "phone", "computer", "javascript", "react",
   "programming", "coding", "book", "books", "celebrity", "celebrities",
   "vacation", "travel", "restaurant", "hobby", "hobbies"]

/-- The `health_keywords` set of views.py:103-110. -/
def health_keywords : List String :=
  ["health", "wellness", "nutrition", "diet", "exercise", "fitness",
   "mental", "stress", "sleep", "medical", "doctor", "hospital", "pain",
   "illness", "symptom", "treatment", "medicine", "vitamin", "weight",
   "workout", "yoga", "meditation", "therapy", "healthy", "condition",
   "diagnosis", "recovery", "cardio", "calorie", "protein", "hydration",
   "depression", "anxiety", "insomnia", "fatigue", "blood pressure",
   "cholesterol", "diabetes", "heart", "lung", "brain", "rehabilitation",
   "prevention"]

/-- `GeminiHealthChat.is_health_related` (views.py:79-118), generalised over
the two keyword sets.  Blank check first, then the off-topic loop (reject),
then `any(kw in m for kw in health_keywords)` (substring containment). -/
def is_health_relatedWith (block allow : List String) (message : String) : Bool :=
  if isBlank message then false
  else if blockHit block (pyLower message) then false
  else allow.any (fun kw => listSub kw.toList (pyLower message))

/-- `is_health_related` with the source's fixed keyword sets. -/
def is_health_related (message : String) : Bool :=
  is_health_relatedWith off_topic_tokens health_keywords message

/-- The three-way view of the same checks, in the source's order:
blank → Ambiguous, block-list hit → OffTopic, allow-list hit → OnTopic,
otherwise Ambiguous. -/
def classifyWith (block allow : List String) (message : String) : Classification :=
  if isBlank message then Classification.Ambiguous
  else if blockHit block (pyLower message) then Classification.OffTopic
  else if allow.any (fun kw => listSub kw.toList (pyLower message)) then
    Classification.OnTopic
  else Classification.Ambiguous

/-- `classifyWith` with the source's fixed keyword sets. -/
def classify (message : String) : Classification :=
  classifyWith off_topic_tokens health_keywords message

/-- `SYSTEM_PROMPT_TEXT` (views.py:33-40). -/
def SYSTEM_PROMPT_TEXT : String :=
  "You are Health Buddy, a strictly focused health and wellness virtual assistant.\nCRITICAL RULES:\n1. Only answer questions about human health, wellness, nutrition, exercise, mental health, and sleep.\n2. Politely but firmly refuse any unrelated topics (pets, sports, entertainment, politics, recipes not about nutrition, etc.).\n3. Keep refusals concise (1-2 sentences) and friendly.\n4. Do not provide medical diagnoses. For concerning symptoms recommend seeking a qualified healthcare professional.\nIf a user asks something not health-related, respond exactly with: \"I specialize only in health and wellness topics. I can help with nutrition, exercise, mental health, sleep, or other health-related questions!\" and optionally offer a short health-related pivot question.\n"

/-- `get_refusal_reply` (views.py:120-121). -/
def get_refusal_reply : String :=
  "I specialize only in health and wellness topics. I can help with nutrition, exercise, mental health, sleep, or other health-related questions!"

/-- `get_clarifying_prompt` (views.py:123-125). -/
def get_clarifying_prompt : String :=
  "Are you asking about a health or wellness concern? If so, please tell me briefly (e.g., sleep, stress, diet)."

/-- The fixed reply of the `if not self.available` branch (views.py:139). -/
def unavailableReply : String :=
  "I\x27m currently unavailable — please try again later. 💚"

/-- The fixed reply of the `except` branch around the model call
(views.py:230). -/
def genErrorReply : String :=
  "I specialize in health and wellness topics. How can I help with your health questions today?"

/-- The seed assistant greeting (views.py:133). -/
def seedGreeting : String :=
  "Hello! I\x27m Health Buddy, your dedicated health and wellness assistant. How can I help you today?"

/-- The 2-turn seed history installed for an unseen session id
(views.py:131-134). -/
def seedHistory : List Turn :=
  [⟨Role.system, SYSTEM_PROMPT_TEXT⟩, ⟨Role.assistant, seedGreeting⟩]

/-- The `conversation_history` dict, keyed by session id. -/
abbrev Store : Type := List (String × List Turn)

/-- Dict lookup. -/
def storeFind (st : Store) (sid : String) : Option (List Turn) :=
  match st with
  | [] => none
  | (k, v) :: r => if k = sid then some v else storeFind r sid

/-- Dict assignment `d[sid] = h`. -/
def storeSet (st : Store) (sid : String) (h : List Turn) : Store :=
  match st with
  | [] => [(sid, h)]
  | (k, v) :: r => if k = sid then (k, h) :: r else (k, v) :: storeSet r sid h

/-- `get_conversation_history` (views.py:127-135): return the stored history,
or install and return the 2-turn seed.  The second component is the store
after the (possibly seeding) call. -/
def get_conversation_history (st : Store) (session_id : String) :
    List Turn × Store :=
  match storeFind st session_id with
  | some h => (h, st)
  | none => (seedHistory, storeSet st session_id seedHistory)

/-- The history-length cap of views.py:160-161:
`if len(history) > 12: history = history[:2] + history[-10:]`. -/
def trunc (history : List Turn) : List Turn :=
  if 12 < history.length then
    history.take 2 ++ history.drop (history.length - 10)
  else history

/-- `GeminiHealthChat.chat` (views.py:137-230), generalised over the keyword
sets.  `gen` is the outcome of the modern-client model call and text
extraction inside the `try:` block (views.py:164-201): `Except.ok text` when
`generate_content` succeeds and `text` is the extracted reply, `Except.error`
when the call raises (network failure, timeout, malformed response), which
the source turns into the fixed pivot reply at views.py:228-230.
`available` is `self.available` set at construction. -/
def chatWith (block allow : List String) (gen : Except Unit String)
    (available : Bool) (st : Store) (user_message session_id : String) :
    String × Store :=
  if available = false then (unavailableReply, st)
  else if is_health_relatedWith block allow user_message = false then
    (if countTokens user_message ≤ 4 then get_clarifying_prompt
     else get_refusal_reply, st)
  else
    let pr := get_conversation_history st session_id
    let history := trunc (pr.1 ++ [⟨Role.user, user_message⟩])
    match gen with
    | Except.error _ => (genErrorReply, pr.2)
    | Except.ok text =>
        (pyStrip text,
         storeSet pr.2 session_id (history ++ [⟨Role.assistant, text⟩]))

/-- `chat` with the source's fixed keyword sets. -/
def chat (gen : Except Unit String) (available : Bool) (st : Store)
    (user_message session_id : String) : String × Store :=
  chatWith off_topic_tokens health_keywords gen available st user_message
    session_id

/-! ### JSON-RPC protocol handler (`A2AHealthView.post`, views.py:283-311) -/

/-- A parsed JSON value.  Numbers are modelled as integers (the envelope
fields the code inspects are strings). -/
inductive JValue
  | null
  | bool (b : Bool)
  | num (n : Int)
  | str (s : String)
  | arr (xs : List JValue)
  | obj (fields : List (String × JValue))

/-- A Python exception escaping an expression. -/
inductive PyErr
  | attributeError
deriving DecidableEq

/-- `body.get(key)`: field lookup on a dict, `AttributeError` on any other
value (lists, numbers, strings have no `.get`). -/
def jget (v : JValue) (k : String) : Except PyErr (Option JValue) :=
  match v with
  | JValue.obj fs => Except.ok (fs.lookup k)
  | _ => Except.error PyErr.attributeError

/-- `key in body` for a dict body (only reached after a successful
`body.get`, hence the same error on non-dicts). -/
def jhas (v : JValue) (k : String) : Except PyErr Bool :=
  match v with
  | JValue.obj fs => Except.ok (fs.any (fun p => p.1 == k))
  | _ => Except.error PyErr.attributeError

/-- Python `value == "somestring"` on a possibly-missing JSON value: true
exactly when the value is present and is that string. -/
def isStr (v : Option JValue) (s : String) : Bool :=
  match v with
  | some (JValue.str t) => t == s
  | _ => false

/-- `str(e)` of the only exception the dispatcher itself can raise. -/
def pyErrStr : PyErr → String
  | PyErr.attributeError => "AttributeError"

/-- `JSONErrorResponse.error` (views.py:234-245): the JSON-RPC error
envelope.  A `none` request id renders as JSON `null`; a falsy `data`
argument is replaced by `{}` (`data or {}`). -/
def jsonErrorResponse (requestId : Option JValue) (code : Int)
    (message : String) (data : Option JValue) : JValue :=
  JValue.obj
    [("jsonrpc", JValue.str "2.0"),
     ("id", requestId.getD JValue.null),
     ("error", JValue.obj
        [("code", JValue.num code),
         ("message", JValue.str message),
         ("data", data.getD (JValue.obj []))])]

/-- `JSONErrorResponse.invalid_request` (views.py:265-272). -/
def invalid_request (requestId : Option JValue) (details : String) : JValue :=
  jsonErrorResponse requestId (-32600) "Invalid Request"
    (some (JValue.obj [("details", JValue.str details)]))

/-- `JSONErrorResponse.internal_error` (views.py:247-254). -/
def internal_error (requestId : Option JValue) (details : String) : JValue :=
  jsonErrorResponse requestId (-32603) "Internal error"
    (some (JValue.obj [("details", JValue.str details)]))

/-- The body of the outer `try:` of `A2AHealthView.post` after a successful
JSON parse (views.py:291-307).  `h1`/`h2` are `handle_message_send` and
`handle_execute`, which catch their own exceptions in the source and hence
are modelled as total functions of `(request_id, params)`. -/
def postBody (h1 h2 : Option JValue → JValue → JValue) (body : JValue) :
    Except PyErr JValue := do
  let jr ← jget body "jsonrpc"
  let hasId ← jhas body "id"
  if !(isStr jr "2.0") || !hasId then
    let idv ← jget body "id"
    return invalid_request idv "jsonrpc must be \x272.0\x27 and id is required"
  else
    let requestId ← jget body "id"
    let method ← jget body "method"
    let params := (← jget body "params").getD (JValue.obj [])
    if isStr method "message/send" then
      return h1 requestId params
    else if isStr method "execute" then
      return h2 requestId params
    else
      return jsonErrorResponse requestId (-32601) "Method not found" none

/-- `A2AHealthView.post` (views.py:283-311).  The input is the outcome of
`json.loads(request.body)`: `none` when it raises `JSONDecodeError`, `some
body` otherwise.  The outer `except Exception` evaluates `body.get("id")`
again (views.py:311); when that itself raises, the exception escapes `post`
— modelled as `Except.error`. -/
def post (h1 h2 : Option JValue → JValue → JValue) (parsed : Option JValue) :
    Except PyErr JValue :=
  match parsed with
  | none => Except.ok (invalid_request none "Invalid JSON format")
  | some body =>
    match postBody h1 h2 body with
    | Except.ok r => Except.ok r
    | Except.error e =>
      match jget body "id" with
      | Except.ok idv => Except.ok (internal_error idv (pyErrStr e))
      | Except.error e2 => Except.error e2

/-! ### Helper lemmas -/

theorem listPre_subset (n h : List Char) (hp : listPre n h = true) :
    ∀ c ∈ n, c ∈ h := by
  induction n generalizing h with
  | nil => intro c hc; cases hc
  | cons a as ih =>
    cases h with
    | nil => simp [listPre] at hp
    | cons b bs =>
      simp only [listPre, Bool.and_eq_true, beq_iff_eq] at hp
      intro c hc
      rcases List.mem_cons.mp hc with rfl | hc2
      · exact List.mem_cons.mpr (Or.inl hp.1)
      · exact List.mem_cons.mpr (Or.inr (ih bs hp.2 c hc2))

theorem listSub_subset (n h : List Char) (hs : listSub n h = true) :
    ∀ c ∈ n, c ∈ h := by
  induction h with
  | nil =>
    intro c hc
    cases n with
    | nil => cases hc
    | cons a as => simp [listSub, listPre] at hs
  | cons b bs ih =>
    simp only [listSub, Bool.or_eq_true] at hs
    rcases hs with hp | htail
    · exact listPre_subset n (b :: bs) hp
    · intro c hc
      exact List.mem_cons.mpr (Or.inr (ih htail c hc))

theorem whitespace_toLower (c : Char) (h : c.isWhitespace = true) :
    c.toLower = c := by
  simp [Char.isWhitespace] at h
  rcases h with ((h | h) | h) | h <;> subst h <;> decide

theorem blank_lower (s : String) (hb : isBlank s = true) :
    ∀ c ∈ pyLower s, c.isWhitespace = true := by
  intro c hc
  rcases List.mem_map.mp hc with ⟨d, hd, rfl⟩
  have hw : d.isWhitespace = true := by
    simp only [isBlank, List.all_eq_true] at hb
    exact hb d hd
  rw [whitespace_toLower d hw]
  exact hw

theorem tok_nonws :
    ∀ tok ∈ off_topic_tokens, tok.toList.any (fun c => !c.isWhitespace) = true := by
  decide

theorem hit_blank_contra (m tl : List Char)
    (hws : ∀ c ∈ m, c.isWhitespace = true)
    (hnw : tl.any (fun c => !c.isWhitespace) = true)
    (hhit : wsTokenHit m tl = true) : False := by
  rcases List.any_eq_true.mp hnw with ⟨d, hd, hdb⟩
  have hdw : d.isWhitespace = false := by simpa using hdb
  simp only [wsTokenHit, Bool.or_eq_true] at hhit
  rcases hhit with (hsub | hpre) | heq
  · have hmem : d ∈ (' ' :: m) :=
      listSub_subset _ _ hsub d (List.mem_cons.mpr (Or.inr hd))
    rcases List.mem_cons.mp hmem with rfl | hdm
    · exact absurd hdw (by decide)
    · rw [hws d hdm] at hdw; cases hdw
  · have hmem : d ∈ m :=
      listPre_subset _ _ hpre d (List.mem_append.mpr (Or.inl hd))
    rw [hws d hmem] at hdw; cases hdw
  · have hm : m = tl := eq_of_beq heq
    subst hm
    rw [hws d hd] at hdw; cases hdw

theorem blockHit_not_blank (s : String)
    (h : blockHit off_topic_tokens (pyLower s) = true) : isBlank s = false := by
  cases hb : isBlank s with
  | false => rfl
  | true =>
    exfalso
    simp only [blockHit] at h
    rcases List.any_eq_true.mp h with ⟨tok, htok, hhit⟩
    exact hit_blank_contra (pyLower s) tok.toList (blank_lower s hb)
      (tok_nonws tok htok) hhit

theorem blockHit_not_health (block allow : List String) (msg : String)
    (hblk : blockHit block (pyLower msg) = true) :
    is_health_relatedWith block allow msg = false := by
  unfold is_health_relatedWith
  split
  · rfl
  · simp [hblk]

theorem health_classify (block allow : List String) (msg : String) :
    is_health_relatedWith block allow msg = true ↔
      classifyWith block allow msg = Classification.OnTopic := by
  unfold is_health_relatedWith classifyWith
  split
  · simp
  · split
    · simp
    · split <;> simp_all

theorem chat_not_health (block allow : List String) (g : Except Unit String)
    (st : Store) (msg sid : String)
    (h : is_health_relatedWith block allow msg = false) :
    chatWith block allow g true st msg sid =
      ((if countTokens msg ≤ 4 then get_clarifying_prompt
        else get_refusal_reply), st) := by
  unfold chatWith
  simp [h]

theorem chat_ok (block allow : List String) (st : Store) (msg sid t : String)
    (h : is_health_relatedWith block allow msg = true) :
    chatWith block allow (Except.ok t) true st msg sid =
      (pyStrip t,
       storeSet (get_conversation_history st sid).2 sid
         (trunc ((get_conversation_history st sid).1 ++ [⟨Role.user, msg⟩]) ++
           [⟨Role.assistant, t⟩])) := by
  unfold chatWith
  simp [h]

theorem chat_err (block allow : List String) (st : Store) (msg sid : String)
    (h : is_health_relatedWith block allow msg = true) :
    chatWith block allow (Except.error ()) true st msg sid =
      (genErrorReply, (get_conversation_history st sid).2) := by
  unfold chatWith
  simp [h]

theorem find_set_self (st : Store) (sid : String) (h : List Turn) :
    storeFind (storeSet st sid h) sid = some h := by
  induction st with
  | nil => simp [storeSet, storeFind]
  | cons p r ih =>
    obtain ⟨k, v⟩ := p
    by_cases hk : k = sid
    · simp [storeSet, storeFind, hk]
    · simp [storeSet, storeFind, hk, ih]

theorem find_set_ne (st : Store) (sid k : String) (h : List Turn)
    (hne : k ≠ sid) : storeFind (storeSet st sid h) k = storeFind st k := by
  induction st with
  | nil => simp [storeSet, storeFind, Ne.symm hne]
  | cons p r ih =>
    obtain ⟨k2, v⟩ := p
    by_cases hk : k2 = sid
    · subst hk
      simp only [storeSet, storeFind, if_pos rfl, if_neg (Ne.symm hne)]
    · simp [storeSet, storeFind, hk, ih]

theorem gch_fst (st : Store) (sid : String) :
    (get_conversation_history st sid).1 = (storeFind st sid).getD seedHistory := by
  unfold get_conversation_history
  cases storeFind st sid <;> rfl

theorem gch_snd (st : Store) (sid : String) :
    (get_conversation_history st sid).2 =
      if (storeFind st sid).isSome then st else storeSet st sid seedHistory := by
  unfold get_conversation_history
  cases storeFind st sid <;> rfl

theorem gch_after (st : Store) (sid sid2 : String) :
    (get_conversation_history (get_conversation_history st sid).2 sid2).1 =
      (get_conversation_history st sid2).1 := by
  rw [gch_fst, gch_fst, gch_snd]
  cases hf : storeFind st sid with
  | some h => simp
  | none =>
    simp only [Option.isSome_none, Bool.false_eq_true, if_false]
    by_cases he : sid2 = sid
    · subst he
      rw [find_set_self, hf]
      rfl
    · rw [find_set_ne st sid sid2 seedHistory he]

theorem gch_len2 (st : Store) (sid : String)
    (hinv : ∀ h, storeFind st sid = some h → 2 ≤ h.length) :
    2 ≤ (get_conversation_history st sid).1.length := by
  rw [gch_fst]
  cases hf : storeFind st sid with
  | some h => exact hinv h hf
  | none => decide

theorem trunc_length (h : List Turn) :
    (trunc h).length = if 12 < h.length then 12 else h.length := by
  unfold trunc
  split
  · rename_i hlen
    simp only [List.length_append, List.length_take, List.length_drop]
    omega
  · rfl

theorem trunc_take2 (h : List Turn) :
    (trunc h).take 2 = h.take 2 := by
  unfold trunc
  split
  · rename_i hlen
    rw [List.take_append_of_le_length (by rw [List.length_take]; omega)]
    rw [List.take_take]
    norm_num
  · rfl

/-! ### Concrete fixtures for counterexamples -/

/-- A reachable 12-turn session history: the 2-turn seed followed by five
persisted user/assistant exchanges. -/
def demoTurns : List Turn :=
  [⟨Role.user, "u1"⟩, ⟨Role.assistant, "a1"⟩, ⟨Role.user, "u2"⟩,
   ⟨Role.assistant, "a2"⟩, ⟨Role.user, "u3"⟩, ⟨Role.assistant, "a3"⟩,
   ⟨Role.user, "u4"⟩, ⟨Role.assistant, "a4"⟩, ⟨Role.user, "u5"⟩,
   ⟨Role.assistant, "a5"⟩]

/-- A store holding one session with a 12-turn history. -/
def store12 : Store := [("s", seedHistory ++ demoTurns)]

/-! ### Claim theorems -/

/-- C1 counterexample: when the model reply contains the block-listed token
"movie", `chat` still returns the reply (not the fixed refusal string) and
persists the exchange: the session afterwards holds 4 turns, not the seeded
2 — no post-check of the reply and no reset occur. -/
theorem chat_reply_postcheck_cex :
    (chat (Except.ok "Watch a movie tonight!") true []
        "tell me about my health" "s").1 = "Watch a movie tonight!" ∧
    "Watch a movie tonight!" ≠ get_refusal_reply ∧
    blockHit off_topic_tokens (pyLower "Watch a movie tonight!") = true ∧
    is_health_related "tell me about my health" = true ∧
    (storeFind (chat (Except.ok "Watch a movie tonight!") true []
        "tell me about my health" "s").2 "s").map List.length = some 4 ∧
    (4 : Nat) ≠ 2 := by
  refine ⟨by decide, by decide, by decide, by decide, by decide, by decide⟩

/-- C1 amended: after the model call `chat` performs no block-list check on
the reply: for every reply text `t` — in particular one containing a
block-listed token (`hblk`, which the conclusion does not depend on) — the
user and assistant turns are persisted and the stripped reply is returned;
no reset of the session occurs (the source defines no reset operation). -/
theorem chat_reply_postcheck_amended (st : Store) (sid msg t : String)
    (hmsg : is_health_related msg = true)
    (hblk : blockHit off_topic_tokens (pyLower t) = true) :
    chat (Except.ok t) true st msg sid =
      (pyStrip t,
       storeSet (get_conversation_history st sid).2 sid
         (trunc ((get_conversation_history st sid).1 ++ [⟨Role.user, msg⟩]) ++
           [⟨Role.assistant, t⟩])) := by
  unfold chat
  exact chat_ok _ _ _ _ _ _ hmsg

/-- Witness for C1 amended at a concrete input. -/
theorem chat_reply_postcheck_amended_witness :
    chat (Except.ok "movie time") true [] "health" "s" =
      (pyStrip "movie time",
       storeSet (get_conversation_history [] "s").2 "s"
         (trunc ((get_conversation_history [] "s").1 ++ [⟨Role.user, "health"⟩]) ++
           [⟨Role.assistant, "movie time"⟩])) :=
  chat_reply_postcheck_amended [] "s" "health" "movie time" (by decide) (by decide)

/-- C2 counterexample: "movie" contains a block-listed token, yet `chat`
(with the backend available) returns the fixed clarifying-question string —
not the fixed refusal string — because the message has at most 4
whitespace-delimited tokens. -/
theorem chat_offtopic_refusal_cex :
    chat (Except.ok "x") true [] "movie" "s" = (get_clarifying_prompt, []) ∧
    get_clarifying_prompt ≠ get_refusal_reply ∧
    blockHit off_topic_tokens (pyLower "movie") = true := by
  refine ⟨by decide, by decide, by decide⟩

/-- C2 amended: for every message containing a block-listed token, `chat`
makes no model call (the result is the same for every `gen` outcome) and
does not mutate the conversation store; it returns the fixed refusal string
when the message has more than 4 whitespace-delimited tokens and the fixed
clarifying-question string otherwise; calling it twice in a row leaves the
store unchanged. -/
theorem chat_offtopic_refusal_amended (st : Store) (sid msg : String)
    (g g2 : Except Unit String)
    (hblk : blockHit off_topic_tokens (pyLower msg) = true) :
    chat g true st msg sid =
      ((if countTokens msg ≤ 4 then get_clarifying_prompt
        else get_refusal_reply), st) ∧
    (chat g2 true (chat g true st msg sid).2 msg sid).2 = st := by
  have hh : is_health_related msg = false :=
    blockHit_not_health off_topic_tokens health_keywords msg hblk
  have h1 := chat_not_health off_topic_tokens health_keywords g st msg sid hh
  have h2 := chat_not_health off_topic_tokens health_keywords g2 st msg sid hh
  refine ⟨h1, ?_⟩
  unfold chat
  rw [h1]
  show (chatWith off_topic_tokens health_keywords g2 true st msg sid).2 = st
  rw [h2]

/-- Witness for C2 amended at a concrete input. -/
theorem chat_offtopic_refusal_amended_witness :
    chat (Except.ok "a") true [] "movie" "s" =
      ((if countTokens "movie" ≤ 4 then get_clarifying_prompt
        else get_refusal_reply), ([] : Store)) ∧
    (chat (Except.ok "b") true (chat (Except.ok "a") true [] "movie" "s").2
        "movie" "s").2 = ([] : Store) :=
  chat_offtopic_refusal_amended [] "s" "movie" (Except.ok "a") (Except.ok "b")
    (by decide)

/-- C3: for every message classified Ambiguous (no block-listed and no
allow-listed token), `chat` returns the fixed clarifying-question string
when the message has at most 4 whitespace-delimited tokens and the fixed
refusal string otherwise; the model outcome `g` is irrelevant (no model
call) and the store is returned unchanged. -/
theorem chat_ambiguous_policy (st : Store) (sid msg : String)
    (g : Except Unit String)
    (hamb : classify msg = Classification.Ambiguous) :
    chat g true st msg sid =
      ((if countTokens msg ≤ 4 then get_clarifying_prompt
        else get_refusal_reply), st) := by
  have hh : is_health_related msg = false := by
    cases hb : is_health_related msg with
    | false => rfl
    | true =>
      exfalso
      have honn := (health_classify off_topic_tokens health_keywords msg).mp hb
      unfold classify at hamb
      rw [hamb] at honn
      cases honn
  unfold chat
  exact chat_not_health _ _ _ _ _ _ hh

/-- Witness for C3 at the spec's Scenario D input "ok". -/
theorem chat_ambiguous_policy_witness :
    chat (Except.ok "x") true [] "ok" "s" =
      ((if countTokens "ok" ≤ 4 then get_clarifying_prompt
        else get_refusal_reply), ([] : Store)) ∧
    (if countTokens "ok" ≤ 4 then get_clarifying_prompt
     else get_refusal_reply) = get_clarifying_prompt ∧
    classify "ok" = Classification.Ambiguous :=
  ⟨chat_ambiguous_policy [] "s" "ok" (Except.ok "x") (by decide),
   by decide, by decide⟩

/-- C4 counterexample: a session already holding 12 turns gains a 13th on
the next successful exchange — the truncation runs before the assistant
turn is appended, so "at most 12 turns after every append" fails. -/
theorem truncation_bound_cex :
    (storeFind store12 "s").map List.length = some 12 ∧
    (storeFind (chat (Except.ok "Stay hydrated.") true store12
        "healthy eating advice please" "s").2 "s").map List.length = some 13 ∧
    ¬ (13 ≤ 12) := by
  refine ⟨by decide, by decide, by decide⟩

/-- C4 amended: the user turn is appended and the working history truncated
to first 2 + last 10 whenever it exceeds 12 turns, and the assistant turn
is appended after truncation; hence after every persisted exchange the
stored history has at most 13 turns, and its first two turns (system
preamble and seed greeting) are those of the history before the call. -/
theorem truncation_bound_amended (st : Store) (sid msg t : String)
    (hmsg : is_health_related msg = true)
    (hinv : ∀ h, storeFind st sid = some h → 2 ≤ h.length) :
    (storeFind (chat (Except.ok t) true st msg sid).2 sid).map List.length =
      some (if (get_conversation_history st sid).1.length + 1 ≤ 12
            then (get_conversation_history st sid).1.length + 2 else 13) ∧
    (if (get_conversation_history st sid).1.length + 1 ≤ 12
     then (get_conversation_history st sid).1.length + 2 else 13) ≤ 13 ∧
    (storeFind (chat (Except.ok t) true st msg sid).2 sid).map (List.take 2) =
      some ((get_conversation_history st sid).1.take 2) := by
  have hok := chat_ok off_topic_tokens health_keywords st msg sid t hmsg
  have h2P : 2 ≤ (get_conversation_history st sid).1.length := gch_len2 st sid hinv
  unfold chat
  rw [hok]
  dsimp only
  rw [find_set_self]
  dsimp only [Option.map]
  refine ⟨?_, ?_, ?_⟩
  · congr 1
    simp only [List.length_append, trunc_length, List.length_singleton]
    split_ifs <;> omega
  · split_ifs <;> omega
  · have hlen2 : 2 ≤
        (trunc ((get_conversation_history st sid).1 ++ [⟨Role.user, msg⟩])).length := by
      simp only [trunc_length, List.length_append, List.length_singleton]
      split_ifs <;> omega
    congr 1
    rw [List.take_append_of_le_length hlen2, trunc_take2,
        List.take_append_of_le_length h2P]

/-- Witness for C4 amended at a concrete input (fresh session). -/
theorem truncation_bound_amended_witness :
    (storeFind (chat (Except.ok "ok") true [] "health" "s").2 "s").map
        List.length =
      some (if (get_conversation_history [] "s").1.length + 1 ≤ 12
            then (get_conversation_history [] "s").1.length + 2 else 13) ∧
    (if (get_conversation_history [] "s").1.length + 1 ≤ 12
     then (get_conversation_history [] "s").1.length + 2 else 13) ≤ 13 ∧
    (storeFind (chat (Except.ok "ok") true [] "health" "s").2 "s").map
        (List.take 2) =
      some ((get_conversation_history [] "s").1.take 2) :=
  truncation_bound_amended [] "s" "health" "ok" (by decide)
    (by intro h hh; simp [storeFind] at hh)

/-- C5: for every input whose lowered text matches some token of the fixed
off-topic block-list (the source's per-token test `wsTokenHit`), the
classifier yields OffTopic for EVERY allow-list — the block-list check runs
first and short-circuits, so the allow-list is never consulted — and the
message is reported as not health-related. -/
theorem blocklist_precedence (msg : String) (allow : List String)
    (hblk : blockHit off_topic_tokens (pyLower msg) = true) :
    classifyWith off_topic_tokens allow msg = Classification.OffTopic ∧
    is_health_relatedWith off_topic_tokens allow msg = false := by
  have hnb := blockHit_not_blank msg hblk
  constructor
  · unfold classifyWith
    rw [hnb, hblk]
    rfl
  · unfold is_health_relatedWith
    rw [hnb, hblk]
    rfl

/-- Witness for C5: "movie and exercise" contains the allow-listed token
"exercise" yet is classified OffTopic because of "movie". -/
theorem blocklist_precedence_witness :
    blockHit off_topic_tokens (pyLower "movie and exercise") = true ∧
    listSub "exercise".toList (pyLower "movie and exercise") = true ∧
    classifyWith off_topic_tokens health_keywords "movie and exercise" =
      Classification.OffTopic :=
  ⟨by decide, by decide,
   (blocklist_precedence "movie and exercise" health_keywords (by decide)).1⟩

/-- C6 counterexample: the classifier does not tokenize on word boundaries.
"fundamental" is a single word that is neither an allow-listed nor a
block-listed token, yet it is classified OnTopic because "mental" occurs
inside it (substring allow-match); conversely "cardio" is an allow-listed
word containing no block-listed word, yet it is classified OffTopic because
the block token "car" matches as a prefix of "cardio". -/
theorem classifier_word_boundary_cex :
    classify "fundamental" = Classification.OnTopic ∧
    countTokens "fundamental" = 1 ∧
    "fundamental" ∉ health_keywords ∧
    "fundamental" ∉ off_topic_tokens ∧
    classify "cardio" = Classification.OffTopic ∧
    "cardio" ∈ health_keywords ∧
    "cardio" ∉ off_topic_tokens := by
  refine ⟨by decide, by decide, by decide, by decide, by decide, by decide,
    by decide⟩

/-- C6 amended: the classifier lowercases its input but does not tokenize
on word boundaries: the allow-list check is plain substring containment
(so "mental" inside "fundamental" counts), and the block-list check matches
a token at the start of a word without checking the token's end (so "car"
inside "cardio" counts).  For every non-blank string containing an
allow-listed keyword as a substring of its lowered text and matching no
block-list token, classification yields OnTopic. -/
theorem classifier_word_boundary_amended (msg kw : String)
    (hnb : isBlank msg = false)
    (hnoblk : blockHit off_topic_tokens (pyLower msg) = false)
    (hkw : kw ∈ health_keywords)
    (hsub : listSub kw.toList (pyLower msg) = true) :
    classify msg = Classification.OnTopic := by
  unfold classify classifyWith
  rw [hnb, hnoblk]
  have hany : health_keywords.any
      (fun k => listSub k.toList (pyLower msg)) = true :=
    List.any_eq_true.mpr ⟨kw, hkw, hsub⟩
  rw [hany]
  rfl

/-- Witness for C6 amended at "fundamental" / "mental". -/
theorem classifier_word_boundary_amended_witness :
    classify "fundamental" = Classification.OnTopic :=
  classifier_word_boundary_amended "fundamental" "mental" (by decide)
    (by decide) (by decide) (by decide)

/-- C7 counterexample: a successful on-topic exchange on a session whose
stored history already has 12 turns grows it to 13 turns, not 14 — the
history length does not increase by exactly 2 once the truncation bound is
reached. -/
theorem roundtrip_growth_cex :
    (storeFind store12 "s").map List.length = some 12 ∧
    (storeFind (chat (Except.ok "Sleep eight hours.") true store12
        "how much sleep do I need" "s").2 "s").map List.length = some 13 ∧
    (13 : Nat) ≠ 12 + 2 := by
  refine ⟨by decide, by decide, by decide⟩

/-- C7 amended: after one successful on-topic exchange the stored history
is exactly 2 turns longer than the history `get_or_create` would have
returned before the call when that history had at most 11 turns; once it
has 12 or more turns, the stored history afterwards has exactly 13 turns. -/
theorem roundtrip_growth_amended (st : Store) (sid msg t : String)
    (hmsg : is_health_related msg = true) :
    (storeFind (chat (Except.ok t) true st msg sid).2 sid).map List.length =
      some (if (get_conversation_history st sid).1.length ≤ 11
            then (get_conversation_history st sid).1.length + 2 else 13) := by
  have hok := chat_ok off_topic_tokens health_keywords st msg sid t hmsg
  unfold chat
  rw [hok]
  dsimp only
  rw [find_set_self]
  dsimp only [Option.map]
  congr 1
  simp only [List.length_append, trunc_length, List.length_singleton]
  split_ifs <;> omega

/-- Witness for C7 amended at a fresh session (history grows 2 → 4). -/
theorem roundtrip_growth_amended_witness :
    (storeFind (chat (Except.ok "ok") true [] "health tips" "s").2 "s").map
        List.length =
      some (if (get_conversation_history [] "s").1.length ≤ 11
            then (get_conversation_history [] "s").1.length + 2 else 13) :=
  roundtrip_growth_amended [] "s" "health tips" "ok" (by decide)

/-- C8: `chat` degrades to fixed strings without changing persisted
histories: with the backend unavailable it returns the fixed "currently
unavailable" string and the untouched store, for any message; when the
model call raises on an on-topic message it returns the fixed
refusal/pivot string, and the history any later `get_or_create` observes —
for every session id — is what it observed before the call. -/
theorem chat_failure_paths (st : Store) (sid sid2 osid msgA msgB : String)
    (g : Except Unit String) (hB : is_health_related msgB = true) :
    chat g false st msgA sid = (unavailableReply, st) ∧
    (chat (Except.error ()) true st msgB sid2).1 = genErrorReply ∧
    (get_conversation_history (chat (Except.error ()) true st msgB sid2).2
        osid).1 = (get_conversation_history st osid).1 := by
  have herr := chat_err off_topic_tokens health_keywords st msgB sid2 hB
  refine ⟨rfl, ?_, ?_⟩
  · unfold chat
    rw [herr]
  · unfold chat
    rw [herr]
    exact gch_after st sid2 osid

/-- Witness for C8 at concrete inputs. -/
theorem chat_failure_paths_witness :
    chat (Except.ok "r") false [] "movie" "x" = (unavailableReply, ([] : Store)) ∧
    (chat (Except.error ()) true [] "health tips please" "y").1 = genErrorReply ∧
    (get_conversation_history (chat (Except.error ()) true []
        "health tips please" "y").2 "y").1 =
      (get_conversation_history [] "y").1 :=
  chat_failure_paths [] "x" "y" "y" "movie" "health tips please"
    (Except.ok "r") (by decide)

/-- C9 (code bug): for a request body that is valid JSON but not an object
(e.g. `[1]`), `post` raises: the outer exception handler evaluates
`body.get("id")`, which itself raises AttributeError, escaping the handler
— for every pair of method handlers.  Malformed JSON and unknown methods on
well-formed envelopes do produce the documented error envelopes. -/
theorem post_raises_on_nonobject_body
    (h1 h2 : Option JValue → JValue → JValue) :
    post h1 h2 (some (JValue.arr [JValue.num 1])) =
      Except.error PyErr.attributeError ∧
    post h1 h2 none = Except.ok (invalid_request none "Invalid JSON format") ∧
    post h1 h2 (some (JValue.obj
        [("jsonrpc", JValue.str "2.0"), ("id", JValue.num 1),
         ("method", JValue.str "frobnicate")])) =
      Except.ok (jsonErrorResponse (some (JValue.num 1)) (-32601)
        "Method not found" none) := by
  refine ⟨rfl, rfl, rfl⟩

/-- C10: when the backend was constructed without a credential
(`available = false`), `chat` returns the fixed unavailable string and the
untouched store for every non-empty message, independent of the model
outcome and of BOTH keyword lists — neither the classifier nor the
conversation store is consulted. -/
theorem chat_unavailable_short_circuit (block allow : List String)
    (g : Except Unit String) (st : Store) (sid msg : String)
    (hne : msg ≠ "") :
    chatWith block allow g false st msg sid = (unavailableReply, st) := rfl

/-- Witness for C10: even a block-listed message gets the unavailable
string. -/
theorem chat_unavailable_short_circuit_witness :
    chatWith off_topic_tokens health_keywords (Except.ok "x") false []
        "movie" "s" = (unavailableReply, ([] : Store)) ∧
    blockHit off_topic_tokens (pyLower "movie") = true :=
  ⟨chat_unavailable_short_circuit off_topic_tokens health_keywords
      (Except.ok "x") [] "s" "movie" (by decide),
   by decide⟩
